import Mathlib

/-!
Shallow embedding of the notas-app backend (notes CRUD service).

The authoritative implementation is version 11.0 (`src/unnamed/part_000`):
Express handlers over a Postgres store with tables `notes`, `settings`
and `push_subscriptions`, plus the periodic reminder scan
`checkNotesAndSendNotifications`.  The earlier iteration 6.1
(`src/server.js`, second segment) is embedded separately where a claim
cites it (the quick-note endpoints, which in 6.1 are not scoped by user).

Rows are modelled as structures, tables as lists of rows, timestamps as
integers (seconds), and each HTTP handler as a pure function from the
store state and the request data to the new state and the response.
-/

namespace NotasApp

/-- A row of the `notes` table (columns as selected by the v11.0 queries). -/
structure Note where
  id : Nat
  user_id : String
  nombre : String
  contenido : String
  fecha_hora : Option Int
  color : String
  tipo : String
  fijada : Bool
  is_archived : Bool
  notificaciones_activas : Bool
  attachment_url : Option String
  attachment_filename : Option String
deriving Repr, DecidableEq

/-- A row of the `settings` table in v11.0: primary key `(user_id, key)`. -/
structure Setting where
  user_id : String
  key : String
  value : String
deriving Repr, DecidableEq

/-- A row of the `push_subscriptions` table: primary key `user_id`;
the subscription descriptor is opaque to the server. -/
structure PushSub where
  user_id : String
  subscription_details : String
deriving Repr, DecidableEq

/-- The relational store of v11.0. -/
structure DB where
  notes : List Note
  settings : List Setting
  push_subscriptions : List PushSub
deriving Repr, DecidableEq

/-- Strict comparison of due timestamps with `NULLS LAST`: a set timestamp
sorts before an absent one, set timestamps compare by value. -/
def dueLt : Option Int → Option Int → Bool
  | some x, some y => decide (x < y)
  | some _, none => true
  | _, _ => false

/-- The order of `ORDER BY fecha_hora ASC NULLS LAST, id ASC`:
due timestamp ascending, rows without a due timestamp last,
ties broken by ascending id. -/
def noteLe (a b : Note) : Bool :=
  dueLt a.fecha_hora b.fecha_hora ||
    (a.fecha_hora == b.fecha_hora && decide (a.id ≤ b.id))

/-- `noteLe` as a relation, for the sorting lemmas. -/
def noteLeP (a b : Note) : Prop := noteLe a b = true

instance : DecidableRel noteLeP := fun a b => instDecidableEqBool (noteLe a b) true

theorem noteLe_shape (a b : Note) :
    noteLeP a b ↔
      dueLt a.fecha_hora b.fecha_hora = true ∨
        (a.fecha_hora = b.fecha_hora ∧ a.id ≤ b.id) := by
  simp [noteLeP, noteLe]

theorem dueLt_key_total (oa ob : Option Int) (ia ib : Nat) :
    (dueLt oa ob = true ∨ (oa = ob ∧ ia ≤ ib)) ∨
      (dueLt ob oa = true ∨ (ob = oa ∧ ib ≤ ia)) := by
  rcases oa with _ | x <;> rcases ob with _ | y <;> simp [dueLt] <;> omega

theorem dueLt_key_trans (oa ob oc : Option Int) (ia ib ic : Nat)
    (hab : dueLt oa ob = true ∨ (oa = ob ∧ ia ≤ ib))
    (hbc : dueLt ob oc = true ∨ (ob = oc ∧ ib ≤ ic)) :
    dueLt oa oc = true ∨ (oa = oc ∧ ia ≤ ic) := by
  rcases oa with _ | x <;> rcases ob with _ | y <;> rcases oc with _ | z <;>
    simp [dueLt] at * <;> omega

instance : IsTotal Note noteLeP := by
  constructor
  intro a b
  rw [noteLe_shape, noteLe_shape]
  exact dueLt_key_total a.fecha_hora b.fecha_hora a.id b.id

instance : IsTrans Note noteLeP := by
  constructor
  intro a b c hab hbc
  rw [noteLe_shape] at *
  exact dueLt_key_trans _ _ _ _ _ _ hab hbc

/-- `GET /api/notes` (v11.0): rows of `notes` with `user_id = $1 AND
is_archived = false`, ordered by `fecha_hora ASC NULLS LAST, id ASC`. -/
def getNotes (db : DB) (userId : String) : List Note :=
  List.insertionSort noteLeP
    (db.notes.filter (fun n => n.user_id == userId && !n.is_archived))

/-- `GET /api/notes/archived` (v11.0): rows with `user_id = $1 AND
is_archived = true`, same ordering. -/
def getArchivedNotes (db : DB) (userId : String) : List Note :=
  List.insertionSort noteLeP
    (db.notes.filter (fun n => n.user_id == userId && n.is_archived))

/-- The row predicate of `WHERE id = $.. AND user_id = $..`. -/
def ownedBy (noteId : Nat) (userId : String) (n : Note) : Bool :=
  n.id == noteId && n.user_id == userId

/-- The mutable fields carried by the `POST /api/notes` and
`PUT /api/notes/:id` request bodies. -/
structure NotePayload where
  nombre : String
  contenido : String
  fecha_hora : Option Int
  color : String
  tipo : String
  fijada : Bool
  notificaciones_activas : Bool
deriving Repr, DecidableEq

/-- `UPDATE notes SET nombre = .., contenido = .., fecha_hora = .., color = ..,
tipo = .., fijada = .., notificaciones_activas = ..` applied to one row. -/
def applyUpdate (p : NotePayload) (n : Note) : Note :=
  { n with
    nombre := p.nombre
    contenido := p.contenido
    fecha_hora := p.fecha_hora
    color := p.color
    tipo := p.tipo
    fijada := p.fijada
    notificaciones_activas := p.notificaciones_activas }

/-- `PUT /api/notes/:id` (v11.0): update the mutable fields of the rows
matching `id = $8 AND user_id = $9`; `rowCount = 0` answers 404 with no
body, otherwise 200 with the updated row (`result.rows[0]`). -/
def updateNote (db : DB) (userId : String) (noteId : Nat) (p : NotePayload) :
    DB × Nat × Option Note :=
  let ns := db.notes.map fun n => if ownedBy noteId userId n then applyUpdate p n else n
  let rowCount := db.notes.countP (ownedBy noteId userId)
  if rowCount == 0 then ({ db with notes := ns }, 404, none)
  else ({ db with notes := ns }, 200, ((db.notes.filter (ownedBy noteId userId)).map (applyUpdate p)).head?)

/-- A loosely typed JSON field value, as received by the toggle handlers
(`typeof v !== 'boolean'` distinguishes the `bool` case from the rest). -/
inductive JsVal where
  | bool (b : Bool)
  | str (s : String)
  | num (n : Int)
  | null
  | undef
deriving Repr, DecidableEq

/-- `PUT /api/notes/:id/archive` (v11.0): a non-boolean `is_archived`
answers 400 before touching the store; otherwise `UPDATE notes SET
is_archived = $1 WHERE id = $2 AND user_id = $3`, 404 on `rowCount = 0`,
else 200 with the updated row. -/
def setArchive (db : DB) (userId : String) (noteId : Nat) (body : JsVal) :
    DB × Nat × Option Note :=
  match body with
  | .bool b =>
    let ns := db.notes.map fun n => if ownedBy noteId userId n then { n with is_archived := b } else n
    let rowCount := db.notes.countP (ownedBy noteId userId)
    if rowCount == 0 then ({ db with notes := ns }, 404, none)
    else ({ db with notes := ns }, 200,
      ((db.notes.filter (ownedBy noteId userId)).map (fun n => { n with is_archived := b })).head?)
  | _ => (db, 400, none)

/-- `PUT /api/notes/:id/notifications` (v11.0): same shape as the archive
toggle, targeting `notificaciones_activas`. -/
def setNotifs (db : DB) (userId : String) (noteId : Nat) (body : JsVal) :
    DB × Nat × Option Note :=
  match body with
  | .bool b =>
    let ns := db.notes.map fun n =>
      if ownedBy noteId userId n then { n with notificaciones_activas := b } else n
    let rowCount := db.notes.countP (ownedBy noteId userId)
    if rowCount == 0 then ({ db with notes := ns }, 404, none)
    else ({ db with notes := ns }, 200,
      ((db.notes.filter (ownedBy noteId userId)).map
        (fun n => { n with notificaciones_activas := b })).head?)
  | _ => (db, 400, none)

/-- `DELETE /api/notes/:id` (v11.0): `DELETE FROM notes WHERE id = $1 AND
user_id = $2`; `rowCount = 0` answers 404, otherwise 204 with no content. -/
def deleteNote (db : DB) (userId : String) (noteId : Nat) : DB × Nat :=
  let rowCount := db.notes.countP (ownedBy noteId userId)
  let db' := { db with notes := db.notes.filter (fun n => !ownedBy noteId userId n) }
  if rowCount == 0 then (db', 404) else (db', 204)

/-- The uploaded multipart file part, as exposed by the upload middleware
(the byte buffer itself is opaque to the claims). -/
structure UpFile where
  originalname : String
  mimetype : String
deriving Repr, DecidableEq

/-- The blob-store key computed by the upload handler:
`` `${req.user.id}/${noteId}-${Date.now()}-${file.originalname}` ``. -/
def uploadKey (userId : String) (noteId : Nat) (nowMs : Int) (originalname : String) : String :=
  userId ++ "/" ++ toString noteId ++ "-" ++ toString nowMs ++ "-" ++ originalname

/-- The public retrieval URL the blob store reports for a stored key. -/
def publicUrlOf (key : String) : String :=
  "adjuntos/" ++ key

/-- Result of the upload handler: store state, stored blob keys, HTTP
status, and the attachment fields of the 200 response body. -/
structure UploadResult where
  db : DB
  blobs : List String
  status : Nat
  body : Option (String × String)
deriving Repr, DecidableEq

/-- `POST /api/notes/:id/upload` (v11.0): no file part answers 400; a
blob-store failure answers 500; otherwise the blob is stored under
`uploadKey`, then `UPDATE notes SET attachment_url = $1,
attachment_filename = $2 WHERE id = $3 AND user_id = $4` runs with its
row count never inspected, and the handler answers 200 with the public
URL and original filename. -/
def uploadNote (db : DB) (blobs : List String) (userId : String) (noteId : Nat)
    (file : Option UpFile) (nowMs : Int) (blobOk : Bool) : UploadResult :=
  match file with
  | none => ⟨db, blobs, 400, none⟩
  | some f =>
    if blobOk then
      let key := uploadKey userId noteId nowMs f.originalname
      let url := publicUrlOf key
      let ns := db.notes.map fun n =>
        if ownedBy noteId userId n then
          { n with attachment_url := some url, attachment_filename := some f.originalname }
        else n
      ⟨{ db with notes := ns }, blobs ++ [key], 200, some (url, f.originalname)⟩
    else ⟨db, blobs, 500, none⟩

/-- `GET /api/settings/quicknote` (v11.0): `SELECT value FROM settings
WHERE user_id = $1 AND key = 'quickNote'`; `rows[0]?.value || ''` falls
back to the empty string when no row exists. -/
def getQuicknote (db : DB) (userId : String) : String :=
  match (db.settings.filter (fun s => s.user_id == userId && s.key == "quickNote")).head? with
  | some s => s.value
  | none => ""

/-- `PUT /api/settings/quicknote` (v11.0): `INSERT .. ON CONFLICT
(user_id, key) DO UPDATE SET value = $2` — an upsert keyed by
`(user_id, 'quickNote')`. -/
def putQuicknote (db : DB) (userId : String) (content : String) : DB :=
  if db.settings.any (fun s => s.user_id == userId && s.key == "quickNote") then
    { db with settings := db.settings.map fun s =>
        if s.user_id == userId && s.key == "quickNote" then { s with value := content } else s }
  else
    { db with settings := db.settings ++ [⟨userId, "quickNote", content⟩] }

/-- A row of the `settings` table in the v6.1 iteration (`src/server.js`,
second segment): primary key `key` alone, no owner column. -/
structure SettingV61 where
  key : String
  value : String
deriving Repr, DecidableEq

/-- `GET /api/settings/quicknote` (v6.1): the handler is authenticated but
its query `SELECT value FROM settings WHERE key = 'quickNote'` ignores the
caller identity entirely. -/
def getQuicknoteV61 (settings : List SettingV61) (userId : String) : String :=
  match (settings.filter (fun s => s.key == "quickNote")).head? with
  | some s => s.value
  | none => ""

/-- `PUT /api/settings/quicknote` (v6.1): `INSERT .. ON CONFLICT (key) DO
UPDATE SET value = $1` — an upsert keyed by `key` alone, shared by every
caller; the caller identity is ignored. -/
def putQuicknoteV61 (settings : List SettingV61) (userId : String) (content : String) :
    List SettingV61 :=
  if settings.any (fun s => s.key == "quickNote") then
    settings.map fun s => if s.key == "quickNote" then { s with value := content } else s
  else
    settings ++ [⟨"quickNote", content⟩]

/-- Time in seconds. The selection query keeps a note whose due timestamp
lies in one of the inclusive bands `NOW() + L - 1min .. NOW() + L + 1min`
for the lead times `L` of 4, 24 and 48 hours (`3 hours 59 minutes` =
14340 s, `4 hours 1 minute` = 14460 s, and so on). -/
def inBand (now t : Int) : Bool :=
  (decide (now + 14340 ≤ t) && decide (t ≤ now + 14460)) ||
  (decide (now + 86340 ≤ t) && decide (t ≤ now + 86460)) ||
  (decide (now + 172740 ≤ t) && decide (t ≤ now + 172860))

/-- The note-side `WHERE` clause of the reminder selection query:
`notificaciones_activas = true AND fecha_hora IS NOT NULL AND
(fecha_hora BETWEEN .. OR ..)`. -/
def noteDue (now : Int) (n : Note) : Bool :=
  n.notificaciones_activas &&
    match n.fecha_hora with
    | none => false
    | some t => inBand now t

/-- A row of the reminder selection query:
`SELECT n.id as note_id, n.nombre, ps.subscription_details, ps.user_id`. -/
structure ReminderRow where
  note_id : Nat
  nombre : String
  subscription_details : String
  user_id : String
deriving Repr, DecidableEq

/-- `JOIN push_subscriptions ps ON n.user_id = ps.user_id`:
the rows one note contributes. -/
def joinSubs (subs : List PushSub) (n : Note) : List ReminderRow :=
  (subs.filter (fun ps => ps.user_id == n.user_id)).map fun ps =>
    ⟨n.id, n.nombre, ps.subscription_details, ps.user_id⟩

/-- The full result of the reminder selection query. -/
def matchedRows (db : DB) (now : Int) : List ReminderRow :=
  (db.notes.filter (noteDue now)).flatMap (joinSubs db.push_subscriptions)

/-- Outcome of one `webpush.sendNotification` call: `none` is success,
`some c` an error whose `statusCode` is `c` (410 is the terminal
"subscription gone" signal). -/
def PushOutcome := Option Nat

/-- The body of the reminder loop for one fetched row: the delivery is
attempted (recorded in the accumulator's list); a 410 error deletes the
owner's `push_subscriptions` row; any other outcome leaves the store
unchanged. -/
def cycleStep (deliver : ReminderRow → Option Nat) (st : DB × List ReminderRow)
    (row : ReminderRow) : DB × List ReminderRow :=
  let db := st.1
  let db' :=
    match deliver row with
    | none => db
    | some code =>
      if code = 410 then
        { db with push_subscriptions :=
            db.push_subscriptions.filter (fun ps => !(ps.user_id == row.user_id)) }
      else db
  (db', st.2 ++ [row])

/-- `checkNotesAndSendNotifications` (v11.0): fetch the matched rows once,
then iterate the delivery loop over them. Returns the final store state
and the list of rows for which a delivery attempt was made, in order. -/
def checkNotesAndSendNotifications (deliver : ReminderRow → Option Nat)
    (db : DB) (now : Int) : DB × List ReminderRow :=
  (matchedRows db now).foldl (cycleStep deliver) (db, [])

/-- A note row with the fields the claims vary; the remaining fields take
the creation defaults of `POST /api/notes`. -/
def mkNote (i : Nat) (u : String) (fh : Option Int) (arch act : Bool) : Note :=
  ⟨i, u, "nota", "", fh, "#f1e363ff", "Clase", false, arch, act, none, none⟩

/-! ### Helper lemmas -/

theorem map_ite_id {α : Type} (l : List α) (p : α → Bool) (f : α → α)
    (h : ∀ x ∈ l, ¬ p x = true) :
    (l.map fun x => if p x then f x else x) = l := by
  have h2 : (l.map fun x => if p x then f x else x) = l.map id :=
    List.map_congr_left fun a ha => by simp [h a ha]
  rw [h2, List.map_id]

theorem filter_key_unique {α β : Type} [DecidableEq β] (f : α → β) (l : List α) (x : α)
    (hx : x ∈ l) (hnd : (l.map f).Nodup) :
    l.filter (fun y => f y == f x) = [x] := by
  induction l with
  | nil => cases hx
  | cons a l ih =>
    rw [List.map_cons, List.nodup_cons] at hnd
    rcases List.mem_cons.mp hx with rfl | hx'
    · rw [List.filter_cons_of_pos (by simp)]
      have hnil : l.filter (fun y => f y == f x) = [] := by
        rw [List.filter_eq_nil_iff]
        intro y hy hbeq
        rw [beq_iff_eq] at hbeq
        exact hnd.1 (by rw [← hbeq]; exact List.mem_map_of_mem f hy)
      rw [hnil]
    · have hne : (f a == f x) = false := by
        rw [beq_eq_false_iff_ne]
        intro hfe
        exact hnd.1 (hfe ▸ List.mem_map_of_mem f hx')
      simp only [List.filter_cons, hne, Bool.false_eq_true, if_false]
      exact ih hx' hnd.2

theorem filter_split {α : Type} (l : List α) (p q : α → Bool) :
    (l.filter (fun x => p x && !q x) ++ l.filter (fun x => p x && q x)).Perm
      (l.filter p) := by
  induction l with
  | nil => simp
  | cons a l ih =>
    cases hp : p a
    · simpa [List.filter_cons, hp] using ih
    · cases hq : q a
      · simpa [List.filter_cons, hp, hq] using ih.cons a
      · simp only [List.filter_cons, hp, hq]
        simp only [Bool.true_and, Bool.not_true, List.cons_append]
        exact List.perm_middle.trans (ih.cons a)

/-! ### Claim theorems -/

/-- C7: for every owner, the active listing contains no archived note, the
archived listing contains no non-archived note, and together the two
listings are a permutation of all of that owner's notes. -/
theorem active_archived_partition (db : DB) (u : String) :
    (∀ n ∈ getNotes db u, n.is_archived = false) ∧
    (∀ n ∈ getArchivedNotes db u, n.is_archived = true) ∧
    (getNotes db u ++ getArchivedNotes db u).Perm
      (db.notes.filter (fun n => n.user_id == u)) := by
  refine ⟨?_, ?_, ?_⟩
  · intro n hn
    have hmem := (List.perm_insertionSort noteLeP _).mem_iff.mp hn
    have := (List.mem_filter.mp hmem).2
    simp at this
    exact this.2
  · intro n hn
    have hmem := (List.perm_insertionSort noteLeP _).mem_iff.mp hn
    have := (List.mem_filter.mp hmem).2
    simp at this
    exact this.2
  · have h1 := List.perm_insertionSort noteLeP
      (db.notes.filter (fun n => n.user_id == u && !n.is_archived))
    have h2 := List.perm_insertionSort noteLeP
      (db.notes.filter (fun n => n.user_id == u && n.is_archived))
    exact (h1.append h2).trans
      (filter_split db.notes (fun n => n.user_id == u) (fun n => n.is_archived))

/-- C8: deleting a note owned by the caller answers 204 the first time; the
second delete of the same id answers 404 and changes no state. -/
theorem delete_twice (db : DB) (u : String) (i : Nat)
    (h : ∃ n ∈ db.notes, n.id = i ∧ n.user_id = u) :
    (deleteNote db u i).2 = 204 ∧
    (deleteNote (deleteNote db u i).1 u i).2 = 404 ∧
    (deleteNote (deleteNote db u i).1 u i).1 = (deleteNote db u i).1 := by
  obtain ⟨n, hn, hid, hu⟩ := h
  have hcnt : (db.notes.countP (ownedBy i u) == 0) = false := by
    rw [beq_eq_false_iff_ne]
    have : 0 < db.notes.countP (ownedBy i u) := by
      rw [List.countP_pos_iff]
      exact ⟨n, hn, by simp [ownedBy, hid, hu]⟩
    omega
  have e1 : deleteNote db u i =
      ({ db with notes := db.notes.filter (fun m => !ownedBy i u m) }, 204) := by
    simp only [deleteNote, hcnt, Bool.false_eq_true, if_false]
  have hzero : (db.notes.filter (fun m => !ownedBy i u m)).countP (ownedBy i u) = 0 := by
    rw [List.countP_eq_zero]
    intro a ha
    have hmem := (List.mem_filter.mp ha).2
    simp only [Bool.not_eq_eq_eq_not, Bool.not_true] at hmem
    simp [hmem]
  have hfix : (db.notes.filter (fun m => !ownedBy i u m)).filter (fun m => !ownedBy i u m)
      = db.notes.filter (fun m => !ownedBy i u m) := by
    rw [List.filter_eq_self]
    intro a ha
    exact (List.mem_filter.mp ha).2
  have e2 : deleteNote { db with notes := db.notes.filter (fun m => !ownedBy i u m) } u i
      = ({ db with notes := db.notes.filter (fun m => !ownedBy i u m) }, 404) := by
    simp only [deleteNote, hzero, hfix, beq_self_eq_true, if_true]
  refine ⟨?_, ?_, ?_⟩
  · rw [e1]
  · rw [e1]
    dsimp only
    rw [e2]
  · rw [e1]
    dsimp only
    rw [e2]

/-- C6: the archive toggle and the notifications toggle answer 400 and leave
the store unchanged on any non-boolean payload field; on a boolean payload
with no row matching id + owner they answer 404. -/
theorem toggle_validation (db : DB) (u : String) (i : Nat) (body : JsVal)
    (hb : ∀ b, body ≠ JsVal.bool b) :
    setArchive db u i body = (db, 400, none) ∧
    setNotifs db u i body = (db, 400, none) ∧
    ∀ b : Bool, db.notes.countP (ownedBy i u) = 0 →
      setArchive db u i (.bool b) = (db, 404, none) ∧
      setNotifs db u i (.bool b) = (db, 404, none) := by
  refine ⟨?_, ?_, ?_⟩
  · cases body with
    | bool b => exact absurd rfl (hb b)
    | str s => rfl
    | num m => rfl
    | null => rfl
    | undef => rfl
  · cases body with
    | bool b => exact absurd rfl (hb b)
    | str s => rfl
    | num m => rfl
    | null => rfl
    | undef => rfl
  · intro b hzero
    have hmap := map_ite_id db.notes (ownedBy i u)
    have hall : ∀ x ∈ db.notes, ¬ ownedBy i u x = true := List.countP_eq_zero.mp hzero
    constructor
    · simp [setArchive, hzero, hmap _ hall]
    · simp [setNotifs, hzero, hmap _ hall]

/-- C8 witness: at a one-note store owned by `"u"`, the two successive
deletes answer 204 then 404, the second changing nothing. -/
theorem delete_twice_witness :
    (∃ n ∈ (⟨[mkNote 1 "u" none false false], [], []⟩ : DB).notes,
        n.id = 1 ∧ n.user_id = "u") ∧
    ((deleteNote ⟨[mkNote 1 "u" none false false], [], []⟩ "u" 1).2 = 204 ∧
      (deleteNote (deleteNote ⟨[mkNote 1 "u" none false false], [], []⟩ "u" 1).1 "u" 1).2 = 404 ∧
      (deleteNote (deleteNote ⟨[mkNote 1 "u" none false false], [], []⟩ "u" 1).1 "u" 1).1 =
        (deleteNote ⟨[mkNote 1 "u" none false false], [], []⟩ "u" 1).1) :=
  ⟨by decide, delete_twice ⟨[mkNote 1 "u" none false false], [], []⟩ "u" 1 (by decide)⟩

/-- C6 witness: a string payload for either toggle answers 400 and leaves
the store unchanged; a boolean payload with no matching row answers 404. -/
theorem toggle_validation_witness :
    (∀ b, JsVal.str "x" ≠ JsVal.bool b) ∧
    (setArchive ⟨[], [], []⟩ "u" 1 (.str "x") = (⟨[], [], []⟩, 400, none) ∧
      setNotifs ⟨[], [], []⟩ "u" 1 (.str "x") = (⟨[], [], []⟩, 400, none) ∧
      ∀ b : Bool, (⟨[], [], []⟩ : DB).notes.countP (ownedBy 1 "u") = 0 →
        setArchive ⟨[], [], []⟩ "u" 1 (.bool b) = (⟨[], [], []⟩, 404, none) ∧
        setNotifs ⟨[], [], []⟩ "u" 1 (.bool b) = (⟨[], [], []⟩, 404, none)) :=
  ⟨(fun b h => nomatch h), toggle_validation ⟨[], [], []⟩ "u" 1 (.str "x") (fun b h => nomatch h)⟩

theorem updateNote_notes (db : DB) (u : String) (i : Nat) (p : NotePayload) :
    (updateNote db u i p).1.notes =
      db.notes.map (fun n => if ownedBy i u n then applyUpdate p n else n) := by
  unfold updateNote
  dsimp only
  split <;> rfl

theorem updateNote_no_match (db : DB) (u : String) (i : Nat) (p : NotePayload)
    (h : ∀ x ∈ db.notes, ¬ ownedBy i u x = true) :
    updateNote db u i p = (db, 404, none) := by
  have hzero : db.notes.countP (ownedBy i u) = 0 := List.countP_eq_zero.mpr h
  have hfilter : db.notes.filter (ownedBy i u) = [] := by
    rw [List.filter_eq_nil_iff]
    exact h
  simp only [updateNote, hzero, map_ite_id db.notes (ownedBy i u) _ h, beq_self_eq_true,
    if_true, hfilter]

theorem deleteNote_no_match (db : DB) (u : String) (i : Nat)
    (h : ∀ x ∈ db.notes, ¬ ownedBy i u x = true) :
    deleteNote db u i = (db, 404) := by
  have hzero : db.notes.countP (ownedBy i u) = 0 := List.countP_eq_zero.mpr h
  have hfilter : db.notes.filter (fun n => !ownedBy i u n) = db.notes := by
    rw [List.filter_eq_self]
    intro a ha
    simp [h a ha]
  simp only [deleteNote, hzero, hfilter, beq_self_eq_true, if_true]

theorem uploadNote_no_match (db : DB) (blobs : List String) (u : String) (i : Nat)
    (f : UpFile) (nowMs : Int)
    (h : ∀ x ∈ db.notes, ¬ ownedBy i u x = true) :
    uploadNote db blobs u i (some f) nowMs true =
      ⟨db, blobs ++ [uploadKey u i nowMs f.originalname], 200,
        some (publicUrlOf (uploadKey u i nowMs f.originalname), f.originalname)⟩ := by
  simp only [uploadNote, if_true, map_ite_id db.notes (ownedBy i u) _ h]

theorem ownedBy_all_false (l : List Note) (a : Note) (v : String)
    (ha : a ∈ l) (hnd : (l.map Note.id).Nodup) (hv : v ≠ a.user_id) :
    ∀ m ∈ l, ¬ ownedBy a.id v m = true := by
  intro m hm hby
  simp only [ownedBy, Bool.and_eq_true, beq_iff_eq] at hby
  have hma : m = a := List.inj_on_of_nodup_map hnd hm ha hby.1
  rw [hma] at hby
  exact hv hby.2.symm

/-- C10: the full note update touches only the seven mutable fields of the
matched rows; id, owner, archive flag and attachment fields survive, and
rows not matching id + owner are returned untouched. -/
theorem update_frame (db : DB) (u : String) (i : Nat) (p : NotePayload)
    (j : Nat) (hj : j < db.notes.length) :
    ∃ hj2 : j < (updateNote db u i p).1.notes.length,
      ((updateNote db u i p).1.notes[j]).id = (db.notes[j]).id ∧
      ((updateNote db u i p).1.notes[j]).user_id = (db.notes[j]).user_id ∧
      ((updateNote db u i p).1.notes[j]).is_archived = (db.notes[j]).is_archived ∧
      ((updateNote db u i p).1.notes[j]).attachment_url = (db.notes[j]).attachment_url ∧
      ((updateNote db u i p).1.notes[j]).attachment_filename =
        (db.notes[j]).attachment_filename ∧
      (ownedBy i u (db.notes[j]) = true →
        ((updateNote db u i p).1.notes[j]).nombre = p.nombre ∧
        ((updateNote db u i p).1.notes[j]).contenido = p.contenido ∧
        ((updateNote db u i p).1.notes[j]).fecha_hora = p.fecha_hora ∧
        ((updateNote db u i p).1.notes[j]).color = p.color ∧
        ((updateNote db u i p).1.notes[j]).tipo = p.tipo ∧
        ((updateNote db u i p).1.notes[j]).fijada = p.fijada ∧
        ((updateNote db u i p).1.notes[j]).notificaciones_activas = p.notificaciones_activas) ∧
      (ownedBy i u (db.notes[j]) = false →
        (updateNote db u i p).1.notes[j] = db.notes[j]) := by
  have hlen : (updateNote db u i p).1.notes.length = db.notes.length := by
    rw [updateNote_notes, List.length_map]
  have hj2 : j < (updateNote db u i p).1.notes.length := by omega
  refine ⟨hj2, ?_⟩
  have hget : (updateNote db u i p).1.notes[j] =
      if ownedBy i u (db.notes[j]) then applyUpdate p (db.notes[j]) else db.notes[j] := by
    simp only [updateNote_notes, List.getElem_map]
  rw [hget]
  cases hcase : ownedBy i u (db.notes[j])
  · simp [applyUpdate]
  · simp [applyUpdate]

/-- C10 witness: at a two-note store, updating note 1 keeps its id, owner,
archive flag and attachments, replaces the mutable fields, and leaves the
unmatched note 2 untouched. -/
theorem update_frame_witness :
    (0 < (⟨[mkNote 1 "u" none false false, mkNote 2 "u" (some 5) false false], [], []⟩ :
        DB).notes.length) ∧
    ∃ hj2 : 0 < (updateNote ⟨[mkNote 1 "u" none false false,
        mkNote 2 "u" (some 5) false false], [], []⟩ "u" 1
        ⟨"a", "b", some 7, "c", "d", true, true⟩).1.notes.length,
      ((updateNote ⟨[mkNote 1 "u" none false false, mkNote 2 "u" (some 5) false false], [], []⟩
          "u" 1 ⟨"a", "b", some 7, "c", "d", true, true⟩).1.notes[0]).id =
        ((⟨[mkNote 1 "u" none false false, mkNote 2 "u" (some 5) false false], [], []⟩ :
          DB).notes[0]).id ∧
      ((updateNote ⟨[mkNote 1 "u" none false false, mkNote 2 "u" (some 5) false false], [], []⟩
          "u" 1 ⟨"a", "b", some 7, "c", "d", true, true⟩).1.notes[0]).user_id =
        ((⟨[mkNote 1 "u" none false false, mkNote 2 "u" (some 5) false false], [], []⟩ :
          DB).notes[0]).user_id ∧
      ((updateNote ⟨[mkNote 1 "u" none false false, mkNote 2 "u" (some 5) false false], [], []⟩
          "u" 1 ⟨"a", "b", some 7, "c", "d", true, true⟩).1.notes[0]).is_archived =
        ((⟨[mkNote 1 "u" none false false, mkNote 2 "u" (some 5) false false], [], []⟩ :
          DB).notes[0]).is_archived ∧
      ((updateNote ⟨[mkNote 1 "u" none false false, mkNote 2 "u" (some 5) false false], [], []⟩
          "u" 1 ⟨"a", "b", some 7, "c", "d", true, true⟩).1.notes[0]).attachment_url =
        ((⟨[mkNote 1 "u" none false false, mkNote 2 "u" (some 5) false false], [], []⟩ :
          DB).notes[0]).attachment_url ∧
      ((updateNote ⟨[mkNote 1 "u" none false false, mkNote 2 "u" (some 5) false false], [], []⟩
          "u" 1 ⟨"a", "b", some 7, "c", "d", true, true⟩).1.notes[0]).attachment_filename =
        ((⟨[mkNote 1 "u" none false false, mkNote 2 "u" (some 5) false false], [], []⟩ :
          DB).notes[0]).attachment_filename ∧
      (ownedBy 1 "u" ((⟨[mkNote 1 "u" none false false,
          mkNote 2 "u" (some 5) false false], [], []⟩ : DB).notes[0]) = true →
        ((updateNote ⟨[mkNote 1 "u" none false false, mkNote 2 "u" (some 5) false false], [], []⟩
            "u" 1 ⟨"a", "b", some 7, "c", "d", true, true⟩).1.notes[0]).nombre = "a" ∧
        ((updateNote ⟨[mkNote 1 "u" none false false, mkNote 2 "u" (some 5) false false], [], []⟩
            "u" 1 ⟨"a", "b", some 7, "c", "d", true, true⟩).1.notes[0]).contenido = "b" ∧
        ((updateNote ⟨[mkNote 1 "u" none false false, mkNote 2 "u" (some 5) false false], [], []⟩
            "u" 1 ⟨"a", "b", some 7, "c", "d", true, true⟩).1.notes[0]).fecha_hora = some 7 ∧
        ((updateNote ⟨[mkNote 1 "u" none false false, mkNote 2 "u" (some 5) false false], [], []⟩
            "u" 1 ⟨"a", "b", some 7, "c", "d", true, true⟩).1.notes[0]).color = "c" ∧
        ((updateNote ⟨[mkNote 1 "u" none false false, mkNote 2 "u" (some 5) false false], [], []⟩
            "u" 1 ⟨"a", "b", some 7, "c", "d", true, true⟩).1.notes[0]).tipo = "d" ∧
        ((updateNote ⟨[mkNote 1 "u" none false false, mkNote 2 "u" (some 5) false false], [], []⟩
            "u" 1 ⟨"a", "b", some 7, "c", "d", true, true⟩).1.notes[0]).fijada = true ∧
        ((updateNote ⟨[mkNote 1 "u" none false false, mkNote 2 "u" (some 5) false false], [], []⟩
            "u" 1 ⟨"a", "b", some 7, "c", "d", true, true⟩).1.notes[0]).notificaciones_activas =
          true) ∧
      (ownedBy 1 "u" ((⟨[mkNote 1 "u" none false false,
          mkNote 2 "u" (some 5) false false], [], []⟩ : DB).notes[0]) = false →
        (updateNote ⟨[mkNote 1 "u" none false false, mkNote 2 "u" (some 5) false false], [], []⟩
            "u" 1 ⟨"a", "b", some 7, "c", "d", true, true⟩).1.notes[0] =
          (⟨[mkNote 1 "u" none false false, mkNote 2 "u" (some 5) false false], [], []⟩ :
            DB).notes[0]) :=
  ⟨by decide,
    update_frame ⟨[mkNote 1 "u" none false false, mkNote 2 "u" (some 5) false false], [], []⟩
      "u" 1 ⟨"a", "b", some 7, "c", "d", true, true⟩ 0 (by decide)⟩

/-- C9: an upload carrying a file whose note id matches no row of the
caller still answers 200 with the attachment URL and filename, stores the
blob, and leaves the notes table entirely unchanged. -/
theorem upload_ignores_rowcount (db : DB) (blobs : List String) (u : String) (i : Nat)
    (f : UpFile) (nowMs : Int)
    (h : db.notes.countP (ownedBy i u) = 0) :
    uploadNote db blobs u i (some f) nowMs true =
      ⟨db, blobs ++ [uploadKey u i nowMs f.originalname], 200,
        some (publicUrlOf (uploadKey u i nowMs f.originalname), f.originalname)⟩ :=
  uploadNote_no_match db blobs u i f nowMs (List.countP_eq_zero.mp h)

/-- C9 witness: uploading to note id 2 of a store holding only note 1
answers 200, stores the blob, and leaves the store unchanged. -/
theorem upload_ignores_rowcount_witness :
    ((⟨[mkNote 1 "u" none false false], [], []⟩ : DB).notes.countP (ownedBy 2 "u") = 0) ∧
    uploadNote ⟨[mkNote 1 "u" none false false], [], []⟩ [] "u" 2
        (some ⟨"a.txt", "text/plain"⟩) 99 true =
      ⟨⟨[mkNote 1 "u" none false false], [], []⟩, [] ++ [uploadKey "u" 2 99 "a.txt"], 200,
        some (publicUrlOf (uploadKey "u" 2 99 "a.txt"), "a.txt")⟩ :=
  ⟨by decide,
    upload_ignores_rowcount ⟨[mkNote 1 "u" none false false], [], []⟩ [] "u" 2
      ⟨"a.txt", "text/plain"⟩ 99 (by decide)⟩

/-- C5: in the v6.1 iteration the quick note is keyed by `key` alone: a put
by one authenticated owner is visible to a different owner's get, so the
quick note is not keyed per owner there (the v11.0 iteration keys it by
`(user_id, key)`). -/
theorem quicknote_v61_cross_owner :
    getQuicknoteV61 ([] : List SettingV61) "userB" = "" ∧
    getQuicknoteV61 (putQuicknoteV61 [] "userA" "hola") "userB" = "hola" ∧
    "userB" ≠ "userA" := by
  refine ⟨rfl, rfl, by decide⟩

/-- C4: the active listing is sorted by due timestamp ascending with
missing timestamps last and ties broken by ascending id, it is a
permutation of the caller's non-archived rows, and on the concrete stores
of the claim the order is [T1, T2, no-date] and equal timestamps order by
ascending id. -/
theorem active_list_ordered (db : DB) (u : String) :
    List.Sorted noteLeP (getNotes db u) ∧
    (getNotes db u).Perm (db.notes.filter (fun n => n.user_id == u && !n.is_archived)) ∧
    getNotes ⟨[mkNote 3 "u" none false false, mkNote 2 "u" (some 200) false false,
        mkNote 1 "u" (some 100) false false], [], []⟩ "u" =
      [mkNote 1 "u" (some 100) false false, mkNote 2 "u" (some 200) false false,
        mkNote 3 "u" none false false] ∧
    getNotes ⟨[mkNote 5 "u" (some 100) false false, mkNote 4 "u" (some 100) false false],
        [], []⟩ "u" =
      [mkNote 4 "u" (some 100) false false, mkNote 5 "u" (some 100) false false] :=
  ⟨List.sorted_insertionSort noteLeP _, List.perm_insertionSort noteLeP _, by decide, by decide⟩

/-- C1 counterexample: at a store holding note 1 owned by `"u"`, an upload
to note 1 by the distinct authenticated caller `"v"` answers 200, not the
not-found result the claim requires for all four operations. -/
theorem upload_cross_owner_returns_200 :
    ("v" : String) ≠ "u" ∧
    (uploadNote ⟨[mkNote 1 "u" none false false], [], []⟩ [] "v" 1
        (some ⟨"a.txt", "text/plain"⟩) 0 true).status = 200 ∧
    ¬ (uploadNote ⟨[mkNote 1 "u" none false false], [], []⟩ [] "v" 1
        (some ⟨"a.txt", "text/plain"⟩) 0 true).status = 404 := by
  refine ⟨by decide, by decide, by decide⟩

/-- C1 amended: for a note A owned by U and a caller V ≠ U, the listings
never contain A, update and delete answer not-found and change nothing;
upload does not answer not-found — it answers 200 — but it leaves the
store unchanged and its response is built only from the caller's own
request data. -/
theorem cross_owner_isolation (db : DB) (blobs : List String) (a : Note) (v : String)
    (p : NotePayload) (f : UpFile) (nowMs : Int)
    (ha : a ∈ db.notes) (hids : (db.notes.map Note.id).Nodup)
    (hv : v ≠ a.user_id) :
    a ∉ getNotes db v ∧
    a ∉ getArchivedNotes db v ∧
    updateNote db v a.id p = (db, 404, none) ∧
    deleteNote db v a.id = (db, 404) ∧
    uploadNote db blobs v a.id (some f) nowMs true =
      ⟨db, blobs ++ [uploadKey v a.id nowMs f.originalname], 200,
        some (publicUrlOf (uploadKey v a.id nowMs f.originalname), f.originalname)⟩ := by
  have hall : ∀ m ∈ db.notes, ¬ ownedBy a.id v m = true :=
    ownedBy_all_false db.notes a v ha hids hv
  refine ⟨?_, ?_, ?_, ?_, ?_⟩
  · intro hmem
    have hmf := (List.perm_insertionSort noteLeP _).mem_iff.mp hmem
    have := (List.mem_filter.mp hmf).2
    simp only [Bool.and_eq_true, beq_iff_eq] at this
    exact hv this.1.symm
  · intro hmem
    have hmf := (List.perm_insertionSort noteLeP _).mem_iff.mp hmem
    have := (List.mem_filter.mp hmf).2
    simp only [Bool.and_eq_true, beq_iff_eq] at this
    exact hv this.1.symm
  · exact updateNote_no_match db v a.id p hall
  · exact deleteNote_no_match db v a.id hall
  · exact uploadNote_no_match db blobs v a.id f nowMs hall

/-- C1 witness: at a store holding note 1 owned by `"u"`, the caller `"v"`
sees no data of note 1 and gets not-found from update and delete, while
upload answers 200 without touching the store. -/
theorem cross_owner_isolation_witness :
    (mkNote 1 "u" none false false ∈
        (⟨[mkNote 1 "u" none false false], [], []⟩ : DB).notes) ∧
    ((⟨[mkNote 1 "u" none false false], [], []⟩ : DB).notes.map Note.id).Nodup ∧
    ("v" : String) ≠ (mkNote 1 "u" none false false).user_id ∧
    (mkNote 1 "u" none false false ∉
        getNotes ⟨[mkNote 1 "u" none false false], [], []⟩ "v" ∧
      mkNote 1 "u" none false false ∉
        getArchivedNotes ⟨[mkNote 1 "u" none false false], [], []⟩ "v" ∧
      updateNote ⟨[mkNote 1 "u" none false false], [], []⟩ "v"
          (mkNote 1 "u" none false false).id ⟨"a", "b", none, "c", "d", false, false⟩ =
        (⟨[mkNote 1 "u" none false false], [], []⟩, 404, none) ∧
      deleteNote ⟨[mkNote 1 "u" none false false], [], []⟩ "v"
          (mkNote 1 "u" none false false).id =
        (⟨[mkNote 1 "u" none false false], [], []⟩, 404) ∧
      uploadNote ⟨[mkNote 1 "u" none false false], [], []⟩ [] "v"
          (mkNote 1 "u" none false false).id (some ⟨"a.txt", "text/plain"⟩) 0 true =
        ⟨⟨[mkNote 1 "u" none false false], [], []⟩,
          [] ++ [uploadKey "v" (mkNote 1 "u" none false false).id 0 "a.txt"], 200,
          some (publicUrlOf (uploadKey "v" (mkNote 1 "u" none false false).id 0 "a.txt"),
            "a.txt")⟩) :=
  ⟨by decide, by decide, by decide,
    cross_owner_isolation ⟨[mkNote 1 "u" none false false], [], []⟩ []
      (mkNote 1 "u" none false false) "v" ⟨"a", "b", none, "c", "d", false, false⟩
      ⟨"a.txt", "text/plain"⟩ 0 (by decide) (by decide) (by decide)⟩

theorem foldl_cycleStep_snd (deliver : ReminderRow → Option Nat) :
    ∀ (rows : List ReminderRow) (st : DB × List ReminderRow),
      (rows.foldl (cycleStep deliver) st).2 = st.2 ++ rows := by
  intro rows
  induction rows with
  | nil => intro st; simp
  | cons r rs ih =>
    intro st
    rw [List.foldl_cons, ih]
    simp [cycleStep]

theorem attempts_eq (deliver : ReminderRow → Option Nat) (db : DB) (now : Int) :
    (checkNotesAndSendNotifications deliver db now).2 = matchedRows db now := by
  unfold checkNotesAndSendNotifications
  rw [foldl_cycleStep_snd]
  simp

theorem joinSubs_note_id (subs : List PushSub) (m : Note) :
    ∀ r ∈ joinSubs subs m, r.note_id = m.id := by
  intro r hr
  unfold joinSubs at hr
  obtain ⟨ps, hps, hrfl⟩ := List.mem_map.mp hr
  rw [← hrfl]

theorem filter_joinSubs_ne (subs : List PushSub) (m : Note) (i : Nat) (hne : m.id ≠ i) :
    (joinSubs subs m).filter (fun r => r.note_id == i) = [] := by
  rw [List.filter_eq_nil_iff]
  intro r hr hbeq
  rw [beq_iff_eq] at hbeq
  exact hne ((joinSubs_note_id subs m r hr) ▸ hbeq)

theorem filter_joinSubs_eq (subs : List PushSub) (m : Note) :
    (joinSubs subs m).filter (fun r => r.note_id == m.id) = joinSubs subs m := by
  rw [List.filter_eq_self]
  intro r hr
  rw [beq_iff_eq]
  exact joinSubs_note_id subs m r hr

theorem flatMap_filter_note (subs : List PushSub) (now : Int) :
    ∀ (l : List Note) (n : Note), n ∈ l → (l.map Note.id).Nodup →
      ((l.filter (noteDue now)).flatMap (joinSubs subs)).filter
          (fun r => r.note_id == n.id) =
        if noteDue now n then joinSubs subs n else [] := by
  intro l
  induction l with
  | nil => intro n hn; cases hn
  | cons m rest ih =>
    intro n hn hnd
    rw [List.map_cons, List.nodup_cons] at hnd
    rcases List.mem_cons.mp hn with rfl | hn'
    · have hrest : ((rest.filter (noteDue now)).flatMap (joinSubs subs)).filter
          (fun r => r.note_id == n.id) = [] := by
        rw [List.filter_eq_nil_iff]
        intro r hr hbeq
        rw [beq_iff_eq] at hbeq
        obtain ⟨m2, hm2, hrm2⟩ := List.mem_flatMap.mp hr
        have hrid : r.note_id = m2.id := joinSubs_note_id subs m2 r hrm2
        have hm2id : m2.id = n.id := by rw [← hrid, hbeq]
        exact hnd.1 (hm2id ▸ List.mem_map_of_mem Note.id (List.mem_filter.mp hm2).1)
      cases hdue : noteDue now n
      · rw [List.filter_cons_of_neg (by simp [hdue]), hrest]
        simp
      · rw [List.filter_cons_of_pos (by simp [hdue]), List.flatMap_cons,
          List.filter_append, filter_joinSubs_eq, hrest]
        simp
    · have hmne : m.id ≠ n.id := fun he =>
        hnd.1 (he ▸ List.mem_map_of_mem Note.id hn')
      cases hdue : noteDue now m
      · rw [List.filter_cons_of_neg (by simp [hdue])]
        exact ih n hn' hnd.2
      · rw [List.filter_cons_of_pos (by simp [hdue]), List.flatMap_cons,
          List.filter_append, filter_joinSubs_ne subs m n.id hmne, List.nil_append]
        exact ih n hn' hnd.2

theorem joinSubs_single (subs : List PushSub) (n : Note) (sub : PushSub)
    (hsub : sub ∈ subs) (hsu : sub.user_id = n.user_id)
    (hnd : (subs.map PushSub.user_id).Nodup) :
    joinSubs subs n = [⟨n.id, n.nombre, sub.subscription_details, sub.user_id⟩] := by
  unfold joinSubs
  have hfil : subs.filter (fun ps => ps.user_id == n.user_id) = [sub] := by
    rw [← hsu]
    exact filter_key_unique PushSub.user_id subs sub hsub hnd
  rw [hfil]
  rfl

/-- C2: with reminders enabled, a set due timestamp, and an active
subscription for the owner, the cycle attempts exactly one delivery for
the note when the due timestamp sits inside one of the three inclusive
±1-minute bands (4 h, 24 h, 48 h before due), and zero deliveries when it
sits outside all three. -/
theorem reminder_band (deliver : ReminderRow → Option Nat) (db : DB) (now t : Int)
    (n : Note) (sub : PushSub)
    (hn : n ∈ db.notes) (hids : (db.notes.map Note.id).Nodup)
    (hact : n.notificaciones_activas = true) (hdue : n.fecha_hora = some t)
    (hsub : sub ∈ db.push_subscriptions) (hsu : sub.user_id = n.user_id)
    (hsubs : (db.push_subscriptions.map PushSub.user_id).Nodup) :
    ((checkNotesAndSendNotifications deliver db now).2.filter
        (fun r => r.note_id == n.id)).length = if inBand now t then 1 else 0 := by
  rw [attempts_eq]
  unfold matchedRows
  rw [flatMap_filter_note db.push_subscriptions now db.notes n hn hids]
  have hshape : noteDue now n = inBand now t := by
    unfold noteDue
    rw [hact, hdue]
    simp
  rw [hshape]
  cases hband : inBand now t
  · simp
  · rw [if_pos rfl, joinSubs_single db.push_subscriptions n sub hsub hsu hsubs]
    rfl

/-- C2 witness: a note due in exactly 4 hours with reminders on and a
subscription for its owner receives exactly one delivery attempt. -/
theorem reminder_band_witness :
    (mkNote 1 "u" (some 14400) false true ∈
        (⟨[mkNote 1 "u" (some 14400) false true], [], [⟨"u", "s"⟩]⟩ : DB).notes) ∧
    ((⟨[mkNote 1 "u" (some 14400) false true], [], [⟨"u", "s"⟩]⟩ : DB).notes.map
        Note.id).Nodup ∧
    (mkNote 1 "u" (some 14400) false true).notificaciones_activas = true ∧
    (mkNote 1 "u" (some 14400) false true).fecha_hora = some 14400 ∧
    ((⟨"u", "s"⟩ : PushSub) ∈
        (⟨[mkNote 1 "u" (some 14400) false true], [], [⟨"u", "s"⟩]⟩ : DB).push_subscriptions) ∧
    (⟨"u", "s"⟩ : PushSub).user_id = (mkNote 1 "u" (some 14400) false true).user_id ∧
    ((⟨[mkNote 1 "u" (some 14400) false true], [], [⟨"u", "s"⟩]⟩ : DB).push_subscriptions.map
        PushSub.user_id).Nodup ∧
    ((checkNotesAndSendNotifications (fun _ => none)
          ⟨[mkNote 1 "u" (some 14400) false true], [], [⟨"u", "s"⟩]⟩ 0).2.filter
        (fun r => r.note_id == (mkNote 1 "u" (some 14400) false true).id)).length =
      if inBand 0 14400 then 1 else 0 :=
  ⟨by decide, by decide, by decide, by decide, by decide, by decide, by decide,
    reminder_band (fun _ => none) ⟨[mkNote 1 "u" (some 14400) false true], [], [⟨"u", "s"⟩]⟩
      0 14400 (mkNote 1 "u" (some 14400) false true) ⟨"u", "s"⟩ (by decide) (by decide)
      (by decide) (by decide) (by decide) (by decide) (by decide)⟩

theorem foldl_cycleStep_subs_mem (deliver : ReminderRow → Option Nat) :
    ∀ (rows : List ReminderRow) (st : DB × List ReminderRow) (ps : PushSub),
      ps ∈ (rows.foldl (cycleStep deliver) st).1.push_subscriptions →
        ps ∈ st.1.push_subscriptions := by
  intro rows
  induction rows with
  | nil => intro st ps h; exact h
  | cons r rs ih =>
    intro st ps h
    have h2 := ih (cycleStep deliver st r) ps h
    unfold cycleStep at h2
    dsimp only at h2
    rcases hd : deliver r with _ | c
    · rw [hd] at h2
      exact h2
    · rw [hd] at h2
      dsimp only at h2
      by_cases hc : c = 410
      · rw [if_pos hc] at h2
        exact (List.mem_filter.mp h2).1
      · rw [if_neg hc] at h2
        exact h2

theorem gone_deleted (deliver : ReminderRow → Option Nat) :
    ∀ (rows : List ReminderRow) (st : DB × List ReminderRow) (row : ReminderRow),
      row ∈ rows → deliver row = some 410 →
      ∀ ps ∈ (rows.foldl (cycleStep deliver) st).1.push_subscriptions,
        ps.user_id ≠ row.user_id := by
  intro rows
  induction rows with
  | nil => intro st row h; cases h
  | cons r rs ih =>
    intro st row hrow hdel ps hps
    rcases List.mem_cons.mp hrow with rfl | hrow'
    · have h2 := foldl_cycleStep_subs_mem deliver rs (cycleStep deliver st row) ps hps
      unfold cycleStep at h2
      rw [hdel] at h2
      dsimp only at h2
      rw [if_pos rfl] at h2
      have h3 := (List.mem_filter.mp h2).2
      simp only [Bool.not_eq_eq_eq_not, Bool.not_true, beq_eq_false_iff_ne] at h3
      exact h3
    · exact ih (cycleStep deliver st r) row hrow' hdel ps hps

theorem no_gone_no_delete (deliver : ReminderRow → Option Nat) :
    ∀ (rows : List ReminderRow) (st : DB × List ReminderRow),
      (∀ r ∈ rows, deliver r ≠ some 410) →
      (rows.foldl (cycleStep deliver) st).1 = st.1 := by
  intro rows
  induction rows with
  | nil => intro st _; rfl
  | cons r rs ih =>
    intro st hno
    rw [List.foldl_cons]
    have hstep : (cycleStep deliver st r).1 = st.1 := by
      unfold cycleStep
      dsimp only
      rcases hd : deliver r with _ | c
      · rfl
      · have hc : c ≠ 410 := by
          intro he
          exact hno r (List.mem_cons_self r rs) (by rw [hd, he])
        dsimp only
        rw [if_neg hc]
    rw [show rs.foldl (cycleStep deliver) (cycleStep deliver st r) =
        rs.foldl (cycleStep deliver) ((cycleStep deliver st r).1, (cycleStep deliver st r).2)
      from rfl]
    rw [hstep]
    exact ih ((st.1, (cycleStep deliver st r).2)) (fun x hx => hno x (List.mem_cons_of_mem r hx))

/-- C3: a delivery reporting the terminal 410 "subscription gone" code
leaves no subscription row for that owner at the end of the cycle; when no
delivery reports 410 the store (subscriptions included) is unchanged; and
in every case the cycle attempts delivery for all matched rows rather than
aborting. -/
theorem delivery_failure_handling (deliver : ReminderRow → Option Nat) (db : DB) (now : Int)
    (row : ReminderRow) (hrow : row ∈ matchedRows db now) :
    (deliver row = some 410 →
      ∀ ps ∈ (checkNotesAndSendNotifications deliver db now).1.push_subscriptions,
        ps.user_id ≠ row.user_id) ∧
    ((∀ r ∈ matchedRows db now, deliver r ≠ some 410) →
      (checkNotesAndSendNotifications deliver db now).1 = db) ∧
    (checkNotesAndSendNotifications deliver db now).2 = matchedRows db now := by
  refine ⟨?_, ?_, attempts_eq deliver db now⟩
  · intro hdel ps hps
    exact gone_deleted deliver (matchedRows db now) (db, []) row hrow hdel ps hps
  · intro hno
    exact no_gone_no_delete deliver (matchedRows db now) (db, []) hno

/-- C3 witness: with one matched row whose delivery reports 410, the
owner's subscription is gone after the cycle; and the attempts list always
equals the matched rows. -/
theorem delivery_failure_handling_witness :
    ((⟨1, "nota", "s", "u"⟩ : ReminderRow) ∈
        matchedRows ⟨[mkNote 1 "u" (some 14400) false true], [], [⟨"u", "s"⟩]⟩ 0) ∧
    (((fun _ => some 410 : ReminderRow → Option Nat) ⟨1, "nota", "s", "u"⟩ = some 410 →
        ∀ ps ∈ (checkNotesAndSendNotifications (fun _ => some 410)
            ⟨[mkNote 1 "u" (some 14400) false true], [], [⟨"u", "s"⟩]⟩ 0).1.push_subscriptions,
          ps.user_id ≠ (⟨1, "nota", "s", "u"⟩ : ReminderRow).user_id) ∧
      ((∀ r ∈ matchedRows ⟨[mkNote 1 "u" (some 14400) false true], [], [⟨"u", "s"⟩]⟩ 0,
          (fun _ => some 410 : ReminderRow → Option Nat) r ≠ some 410) →
        (checkNotesAndSendNotifications (fun _ => some 410)
            ⟨[mkNote 1 "u" (some 14400) false true], [], [⟨"u", "s"⟩]⟩ 0).1 =
          ⟨[mkNote 1 "u" (some 14400) false true], [], [⟨"u", "s"⟩]⟩) ∧
      (checkNotesAndSendNotifications (fun _ => some 410)
          ⟨[mkNote 1 "u" (some 14400) false true], [], [⟨"u", "s"⟩]⟩ 0).2 =
        matchedRows ⟨[mkNote 1 "u" (some 14400) false true], [], [⟨"u", "s"⟩]⟩ 0) :=
  ⟨by decide,
    delivery_failure_handling (fun _ => some 410)
      ⟨[mkNote 1 "u" (some 14400) false true], [], [⟨"u", "s"⟩]⟩ 0
      ⟨1, "nota", "s", "u"⟩ (by decide)⟩

end NotasApp
